import Mathlib

/-!
Verification of the declaration surface of the ReporteRs PPTX
graphics-device shim, `src-i386/PPTX.h`.

The header contains only forward declarations, so the embedding records
each declared C signature exactly as written: the function name, whether
it is file-local (a `static` linkage flag), its return type, and its
ordered parameter list (parameter name paired with its C type).  The
claims about the header are then decidable statements over these
records.  The reading of `n` vertices from the parallel coordinate
arrays of the polyline/polygon callbacks is modelled over lists, since
the callback bodies are not part of this fragment.
-/

/-- The C types occurring in the declarations of `PPTX.h`. -/
inductive CType where
  | void
  | double
  | int
  | rboolean
  | sexp
  | constCharPtr
  | doublePtr
  | pDevDesc
  | constPGEcontext
  deriving DecidableEq, Repr

/-- One forward declaration of the header: function name, file-local
linkage flag, return type, and the ordered list of parameters, each a
name paired with its C type. -/
structure CDecl where
  name : String
  isStatic : Bool
  ret : CType
  params : List (String × CType)
  deriving DecidableEq, Repr

/-- `static Rboolean PPTXDeviceDriver(pDevDesc dev, const char* filename,
double* width, double* height, double* offx, double* offy, double ps,
int nbplots, const char* fontname, SEXP env)` -/
def PPTXDeviceDriver : CDecl :=
  ⟨"PPTXDeviceDriver", true, CType.rboolean,
   [("dev", CType.pDevDesc), ("filename", CType.constCharPtr),
    ("width", CType.doublePtr), ("height", CType.doublePtr),
    ("offx", CType.doublePtr), ("offy", CType.doublePtr),
    ("ps", CType.double), ("nbplots", CType.int),
    ("fontname", CType.constCharPtr), ("env", CType.sexp)]⟩

/-- `void GE_PPTXDevice(const char* filename, double* width, double* height,
double* offx, double* offy, double ps, int nbplots, const char* fontfamily)` -/
def GE_PPTXDevice : CDecl :=
  ⟨"GE_PPTXDevice", false, CType.void,
   [("filename", CType.constCharPtr), ("width", CType.doublePtr),
    ("height", CType.doublePtr), ("offx", CType.doublePtr),
    ("offy", CType.doublePtr), ("ps", CType.double),
    ("nbplots", CType.int), ("fontfamily", CType.constCharPtr)]⟩

/-- `static void PPTX_activate(pDevDesc dev)` -/
def PPTX_activate : CDecl :=
  ⟨"PPTX_activate", true, CType.void, [("dev", CType.pDevDesc)]⟩

/-- `static void PPTX_Circle(double x, double y, double r,
const pGEcontext gc, pDevDesc dev)` -/
def PPTX_Circle : CDecl :=
  ⟨"PPTX_Circle", true, CType.void,
   [("x", CType.double), ("y", CType.double), ("r", CType.double),
    ("gc", CType.constPGEcontext), ("dev", CType.pDevDesc)]⟩

/-- `static void PPTX_Line(double x1, double y1, double x2, double y2,
const pGEcontext gc, pDevDesc dev)` -/
def PPTX_Line : CDecl :=
  ⟨"PPTX_Line", true, CType.void,
   [("x1", CType.double), ("y1", CType.double), ("x2", CType.double),
    ("y2", CType.double), ("gc", CType.constPGEcontext), ("dev", CType.pDevDesc)]⟩

/-- `static void PPTX_Polyline(int n, double *x, double *y,
const pGEcontext gc, pDevDesc dev)` -/
def PPTX_Polyline : CDecl :=
  ⟨"PPTX_Polyline", true, CType.void,
   [("n", CType.int), ("x", CType.doublePtr), ("y", CType.doublePtr),
    ("gc", CType.constPGEcontext), ("dev", CType.pDevDesc)]⟩

/-- `static void PPTX_Polygon(int n, double *x, double *y,
const pGEcontext gc, pDevDesc dev)` -/
def PPTX_Polygon : CDecl :=
  ⟨"PPTX_Polygon", true, CType.void,
   [("n", CType.int), ("x", CType.doublePtr), ("y", CType.doublePtr),
    ("gc", CType.constPGEcontext), ("dev", CType.pDevDesc)]⟩

/-- `static void PPTX_Rect(double x0, double y0, double x1, double y1,
const pGEcontext gc, pDevDesc dev)` -/
def PPTX_Rect : CDecl :=
  ⟨"PPTX_Rect", true, CType.void,
   [("x0", CType.double), ("y0", CType.double), ("x1", CType.double),
    ("y1", CType.double), ("gc", CType.constPGEcontext), ("dev", CType.pDevDesc)]⟩

/-- `static void PPTX_Text(double x, double y, const char *str, double rot,
double hadj, const pGEcontext gc, pDevDesc dev)` -/
def PPTX_Text : CDecl :=
  ⟨"PPTX_Text", true, CType.void,
   [("x", CType.double), ("y", CType.double), ("str", CType.constCharPtr),
    ("rot", CType.double), ("hadj", CType.double),
    ("gc", CType.constPGEcontext), ("dev", CType.pDevDesc)]⟩

/-- `static void PPTX_NewPage(const pGEcontext gc, pDevDesc dev)` -/
def PPTX_NewPage : CDecl :=
  ⟨"PPTX_NewPage", true, CType.void,
   [("gc", CType.constPGEcontext), ("dev", CType.pDevDesc)]⟩

/-- `static void PPTX_Close(pDevDesc dev)` -/
def PPTX_Close : CDecl :=
  ⟨"PPTX_Close", true, CType.void, [("dev", CType.pDevDesc)]⟩

/-- `static void PPTX_Clip(double x0, double x1, double y0, double y1,
pDevDesc dev)` -/
def PPTX_Clip : CDecl :=
  ⟨"PPTX_Clip", true, CType.void,
   [("x0", CType.double), ("x1", CType.double), ("y0", CType.double),
    ("y1", CType.double), ("dev", CType.pDevDesc)]⟩

/-- `static void PPTX_MetricInfo(int c, const pGEcontext gc, double* ascent,
double* descent, double* width, pDevDesc dev)` -/
def PPTX_MetricInfo : CDecl :=
  ⟨"PPTX_MetricInfo", true, CType.void,
   [("c", CType.int), ("gc", CType.constPGEcontext),
    ("ascent", CType.doublePtr), ("descent", CType.doublePtr),
    ("width", CType.doublePtr), ("dev", CType.pDevDesc)]⟩

/-- `static void PPTX_Size(double *left, double *right, double *bottom,
double *top, pDevDesc dev)` -/
def PPTX_Size : CDecl :=
  ⟨"PPTX_Size", true, CType.void,
   [("left", CType.doublePtr), ("right", CType.doublePtr),
    ("bottom", CType.doublePtr), ("top", CType.doublePtr),
    ("dev", CType.pDevDesc)]⟩

/-- `static double PPTX_StrWidth(const char *str, const pGEcontext gc,
pDevDesc dev)` -/
def PPTX_StrWidth : CDecl :=
  ⟨"PPTX_StrWidth", true, CType.double,
   [("str", CType.constCharPtr), ("gc", CType.constPGEcontext),
    ("dev", CType.pDevDesc)]⟩

/-- `SEXP R_PPTX_Device(SEXP filename, SEXP width, SEXP height, SEXP offx,
SEXP offy, SEXP pointsize, SEXP fontfamily, SEXP env)` -/
def R_PPTX_Device : CDecl :=
  ⟨"R_PPTX_Device", false, CType.sexp,
   [("filename", CType.sexp), ("width", CType.sexp), ("height", CType.sexp),
    ("offx", CType.sexp), ("offy", CType.sexp), ("pointsize", CType.sexp),
    ("fontfamily", CType.sexp), ("env", CType.sexp)]⟩

/-- All declarations of the header, in source order. -/
def headerDecls : List CDecl :=
  [PPTXDeviceDriver, GE_PPTXDevice, PPTX_activate, PPTX_Circle, PPTX_Line,
   PPTX_Polyline, PPTX_Polygon, PPTX_Rect, PPTX_Text, PPTX_NewPage,
   PPTX_Close, PPTX_Clip, PPTX_MetricInfo, PPTX_Size, PPTX_StrWidth,
   R_PPTX_Device]

/-- The per-primitive and lifecycle device callbacks of the callback table
(everything except the two construction functions and the driver-setup
function). -/
def deviceCallbacks : List CDecl :=
  [PPTX_activate, PPTX_Circle, PPTX_Line, PPTX_Polyline, PPTX_Polygon,
   PPTX_Rect, PPTX_Text, PPTX_NewPage, PPTX_Close, PPTX_Clip,
   PPTX_MetricInfo, PPTX_Size]

/-- A declaration carries the plot count when its parameter list holds
the `int nbplots` argument. -/
def hasPlotCount (d : CDecl) : Bool :=
  d.params.any fun p => p.1 == "nbplots" && p.2 == CType.int

/-- A declaration receives the graphics context when some parameter has
the `const pGEcontext` type. -/
def hasGEContext (d : CDecl) : Bool :=
  d.params.any fun p => p.2 == CType.constPGEcontext

/-- The names of a declaration's output parameters: those of type
`double*`, through which a callback writes results back to the caller. -/
def outParams (d : CDecl) : List String :=
  (d.params.filter fun p => p.2 == CType.doublePtr).map Prod.fst

/-- Modelled from the spec: the polyline and polygon callback bodies are
absent from this fragment; per their declared interface they read `n`
vertices from the two parallel coordinate arrays `x` and `y`.  The
arrays are modelled as lists and an out-of-bounds read yields `none`. -/
def readVertices : Nat → List Float → List Float → Option (List (Float × Float))
  | 0, _, _ => some []
  | n + 1, x, y =>
    (readVertices n x y).bind fun rest =>
      (x[n]?).bind fun xi => (y[n]?).map fun yi => rest ++ [(xi, yi)]

theorem getElem?_isSome_iff_lt (l : List Float) (n : Nat) :
    l[n]?.isSome = true ↔ n < l.length := by
  rcases h0 : l[n]? with _ | a
  · have hlen := List.getElem?_eq_none_iff.mp h0
    simp only [Option.isSome_none, Bool.false_eq_true, false_iff, not_lt]
    exact hlen
  · obtain ⟨hlt, -⟩ := List.getElem?_eq_some_iff.mp h0
    simp only [Option.isSome_some, true_iff]
    exact hlt

theorem readVertices_isSome_iff (n : Nat) (x y : List Float) :
    (readVertices n x y).isSome = true ↔ (n ≤ x.length ∧ n ≤ y.length) := by
  induction n with
  | zero => simp [readVertices]
  | succ n ih =>
    have hx := getElem?_isSome_iff_lt x n
    have hy := getElem?_isSome_iff_lt y n
    rcases hr : readVertices n x y with _ | rest <;>
      rcases hx0 : x[n]? with _ | xi <;>
      rcases hy0 : y[n]? with _ | yi <;>
      simp [readVertices, hr, hx0, hy0] at ih hx hy ⊢ <;>
      omega

/-- C1: The spec reads the construction entry point as one function that
is given, among other things, a plot count and returns a host handle.
No declaration of the header both carries the `int nbplots` parameter
and returns a `SEXP` host handle, so the claim as stated is false. -/
theorem C1_no_single_constructor :
    (headerDecls.any fun d => hasPlotCount d && d.ret == CType.sexp) = false := by
  decide

/-- C1 (amended): the construction surface is split between two
declarations.  `GE_PPTXDevice` is given filename, page dimensions,
offsets, point size, plot count and font family but returns `void`,
while `R_PPTX_Device` returns the host handle (`SEXP`) and carries no
plot-count parameter. -/
theorem C1_construction_split :
    GE_PPTXDevice.ret = CType.void ∧
    GE_PPTXDevice.params =
      [("filename", CType.constCharPtr), ("width", CType.doublePtr),
       ("height", CType.doublePtr), ("offx", CType.doublePtr),
       ("offy", CType.doublePtr), ("ps", CType.double),
       ("nbplots", CType.int), ("fontfamily", CType.constCharPtr)] ∧
    R_PPTX_Device.ret = CType.sexp ∧
    hasPlotCount R_PPTX_Device = false := by
  decide

/-- C2: `R_PPTX_Device` is declared with exactly eight `SEXP` parameters
in the order filename, width, height, offx, offy, pointsize, fontfamily,
env, and returns a `SEXP`, matching the arity the host's native-call
registration table expects. -/
theorem C2_R_PPTX_Device_arity :
    R_PPTX_Device.ret = CType.sexp ∧
    R_PPTX_Device.params =
      [("filename", CType.sexp), ("width", CType.sexp), ("height", CType.sexp),
       ("offx", CType.sexp), ("offy", CType.sexp), ("pointsize", CType.sexp),
       ("fontfamily", CType.sexp), ("env", CType.sexp)] ∧
    R_PPTX_Device.params.length = 8 ∧
    (R_PPTX_Device.params.all fun p => p.2 == CType.sexp) = true := by
  decide

/-- C3: the driver-setup function `PPTXDeviceDriver` returns an
`Rboolean`, the boolean success-or-failure type; it is the unique
declaration of the header with that return type, and every callback of
the device callback table returns `void` (the only non-void callback
return in the table area is `PPTX_StrWidth`, whose `double` result is
the measured width, not a status). -/
theorem C3_driver_failure_channel :
    PPTXDeviceDriver.ret = CType.rboolean ∧
    ((headerDecls.filter fun d => d.ret == CType.rboolean).map CDecl.name)
      = ["PPTXDeviceDriver"] ∧
    (deviceCallbacks.all fun d => d.ret == CType.void) = true ∧
    PPTX_StrWidth.ret = CType.double := by
  decide

/-- C4: the text callback `PPTX_Text` takes, in order, a position
(`x`, `y`), the string, a rotation, a horizontal adjustment, the
graphics context and the device handle, and returns `void`. -/
theorem C4_text_signature :
    PPTX_Text.ret = CType.void ∧
    PPTX_Text.params =
      [("x", CType.double), ("y", CType.double), ("str", CType.constCharPtr),
       ("rot", CType.double), ("hadj", CType.double),
       ("gc", CType.constPGEcontext), ("dev", CType.pDevDesc)] := by
  decide

/-- C5: the metric-query callback `PPTX_MetricInfo` takes a character
code, the graphics context and the device handle, returns `void`, and
its only output channels are the three `double*` parameters `ascent`,
`descent` and `width`. -/
theorem C5_metricInfo_signature :
    PPTX_MetricInfo.ret = CType.void ∧
    PPTX_MetricInfo.params =
      [("c", CType.int), ("gc", CType.constPGEcontext),
       ("ascent", CType.doublePtr), ("descent", CType.doublePtr),
       ("width", CType.doublePtr), ("dev", CType.pDevDesc)] ∧
    outParams PPTX_MetricInfo = ["ascent", "descent", "width"] := by
  decide

/-- C6: the string-measure callback `PPTX_StrWidth` takes the string,
the graphics context and the device handle, returns the measured width
directly as its `double` return value, and has no output-pointer
parameter. -/
theorem C6_strWidth_signature :
    PPTX_StrWidth.ret = CType.double ∧
    PPTX_StrWidth.params =
      [("str", CType.constCharPtr), ("gc", CType.constPGEcontext),
       ("dev", CType.pDevDesc)] ∧
    outParams PPTX_StrWidth = [] := by
  decide

/-- C7: the clip callback `PPTX_Clip` takes only the four bounding-box
coordinates and the device handle, receives no graphics context, and
returns `void`. -/
theorem C7_clip_signature :
    PPTX_Clip.ret = CType.void ∧
    PPTX_Clip.params =
      [("x0", CType.double), ("x1", CType.double), ("y0", CType.double),
       ("y1", CType.double), ("dev", CType.pDevDesc)] ∧
    hasGEContext PPTX_Clip = false := by
  decide

/-- C8: every per-primitive and lifecycle callback of the device table
(activate, circle, line, polyline, polygon, rect, text, newPage, close,
clip, metricInfo, size) is declared to return `void`, so no success or
failure indication can flow back through any of their return values. -/
theorem C8_callbacks_return_void :
    (deviceCallbacks.map CDecl.name) =
      ["PPTX_activate", "PPTX_Circle", "PPTX_Line", "PPTX_Polyline",
       "PPTX_Polygon", "PPTX_Rect", "PPTX_Text", "PPTX_NewPage",
       "PPTX_Close", "PPTX_Clip", "PPTX_MetricInfo", "PPTX_Size"] ∧
    (deviceCallbacks.all fun d => d.ret == CType.void) = true := by
  decide

/-- C9: `PPTX_Polyline` and `PPTX_Polygon` have identical parameter
lists — a vertex count `n`, the two parallel coordinate arrays `x` and
`y`, the graphics context and the device handle — and reading the `n`
vertices the declared interface requires is well defined exactly when
each array holds at least `n` elements. -/
theorem C9_polyline_polygon :
    PPTX_Polyline.params = PPTX_Polygon.params ∧
    PPTX_Polyline.params =
      [("n", CType.int), ("x", CType.doublePtr), ("y", CType.doublePtr),
       ("gc", CType.constPGEcontext), ("dev", CType.pDevDesc)] ∧
    ∀ (n : Nat) (x y : List Float),
      (readVertices n x y).isSome = true ↔ (n ≤ x.length ∧ n ≤ y.length) := by
  exact ⟨by decide, by decide, readVertices_isSome_iff⟩

/-- C10: in both `GE_PPTXDevice` and `PPTXDeviceDriver` the page
dimensions and offsets (width, height, offx, offy) are passed as
`double*` pointers, while the point size is a by-value `double` and the
plot count a by-value `int`. -/
theorem C10_dimension_pointers :
    ((["width", "height", "offx", "offy"].all fun s =>
        GE_PPTXDevice.params.contains (s, CType.doublePtr)) = true) ∧
    ((["width", "height", "offx", "offy"].all fun s =>
        PPTXDeviceDriver.params.contains (s, CType.doublePtr)) = true) ∧
    GE_PPTXDevice.params.contains ("ps", CType.double) = true ∧
    GE_PPTXDevice.params.contains ("nbplots", CType.int) = true ∧
    PPTXDeviceDriver.params.contains ("ps", CType.double) = true ∧
    PPTXDeviceDriver.params.contains ("nbplots", CType.int) = true := by
  decide
